import Mathlib

set_option autoImplicit false

/-!
Shallow embedding of the CSCfi puhti_mlflow_tutorial notebook
(`mlflow_tutorial.ipynb`).  The notebook is a linear sequence of cells that
delegate to the MLflow library: cell-9 sets a tracking URI and experiment,
cell-11 enables autologging, sets one environment variable and trains two
Keras models in a `for` loop (one `mlflow.start_run` per model), cell-16
registers the best run and assigns the alias "challenger" inside a
`try`/`except` block, and cell-19 loads a registered model by alias and
launches a Gradio interface whose callback is the `classify` function.

Pure repository code (the cell bodies, the control flow, the `classify`
pipeline) is embedded directly.  External library state that the cells read
and write (the MLflow run store and model registry) is embedded as explicit
state, with each library call modelled by its documented MLflow semantics:
`search_registered_models` with filter `name LIKE 'mnist%'` is a
case-sensitive prefix filter, `register_model` creates a fresh version one
above the current maximum, `set_registered_model_alias` rebinds the alias,
`pyfunc.load_model` by alias fails when the alias is unbound.  Unknown
numeric outcomes (training accuracies, `skimage.transform.resize` pixel
values, model prediction scores) are abstract parameters.
-/

namespace MlflowTutorial

/-- One MLflow run as returned (as a dataframe row) by `mlflow.search_runs`:
a run id, the run name tag, and the autologged `validation_accuracy` metric
(`none` when the run did not log that metric, i.e. a NaN cell in pandas). -/
structure Run where
  run_id : String
  runName : String
  validation_accuracy : Option ℚ
  deriving DecidableEq, Repr

/-- The value returned by `mlflow.register_model`: a model version with its
registered-model name, version number, and source run URI. -/
structure ModelVersion where
  name : String
  version : Nat
  source : String
  deriving DecidableEq, Repr

/-- The MLflow model-registry state the notebook reads and writes:
the names of the registered models, the model versions (name, version
number, source URI), and the alias bindings, kept as an association list
from (model name, alias) to version number where the first matching entry
is the current binding. -/
structure RegistryState where
  models : List String
  versions : List (String × Nat × String)
  aliases : List ((String × String) × Nat)
  deriving DecidableEq, Repr

/-- The whole program state threaded through the notebook cells: the MLflow
tracking URI and current experiment set in cell-9, the process environment
(`os.environ`), the autolog flag, the run store of the current experiment,
and the model registry. -/
structure ProgState where
  trackingUri : Option String
  experimentName : Option String
  env : String → Option String
  autologOn : Bool
  runs : List Run
  registry : RegistryState

/-- Observable library operations performed by the notebook, recorded as an
event trace in the order the cells invoke them.  `serveRest` stands for
starting an `mlflow models serve` REST endpoint; the notebook only mentions
that feature in prose, so no cell ever emits it. -/
inductive Event where
  | setTrackingUri
  | setExperiment
  | autolog
  | startRun
  | setTag
  | fitModel
  | endRun
  | searchRuns
  | searchRegisteredModels
  | registerModel
  | setAlias
  | loadModel
  | launchUI
  | serveRest
  deriving DecidableEq, Repr

/-- Python exceptions that the `try` block of cell-16 can raise: the
explicit `IndexError("No registered model found")`, or any other library
exception (carrying its message), such as the pandas error raised by
`idxmax` on a column with no values. -/
inductive TryError where
  | indexError
  | otherError (msg : String)
  deriving DecidableEq, Repr

/-- Maximum of a list of rationals, `none` on the empty list.  This is the
maximum that `pandas.Series.idxmax` computes over the non-NaN entries of
the `metrics.validation_accuracy` column. -/
def listMax : List ℚ → Option ℚ
  | [] => none
  | q :: qs =>
    match listMax qs with
    | none => some q
    | some m => some (max q m)

/-- Embedding of `runs['metrics.validation_accuracy'].idxmax()` followed by
`runs.loc[..., 'run_id']`: the first run whose `validation_accuracy` equals
the maximum over all runs that logged the metric; `none` when no run logged
it (pandas raises there, caught by the generic `except`). -/
def idxmaxRun (runs : List Run) : Option Run :=
  match listMax (runs.filterMap (fun r => r.validation_accuracy)) with
  | none => none
  | some m => runs.find? (fun r => r.validation_accuracy == some m)

/-- The pattern `name LIKE 'mnist%'` of cell-16's filter string: a
case-sensitive check that the name starts with the five characters
`mnist`, phrased on the character list so that it evaluates. -/
def likeMnist (n : String) : Bool :=
  n.data.take 5 == "mnist".data

/-- Embedding of `mlflow.search_registered_models(filter_string="name LIKE
'mnist%'")`: the registered-model names matching the pattern (MLflow
`LIKE` is a case-sensitive pattern match). -/
def search_registered_models (reg : RegistryState) : List String :=
  reg.models.filter (fun n => likeMnist n)

/-- Version number that `mlflow.register_model` assigns for a model name:
one above the maximum existing version of that name (1 when none exist). -/
def nextVersion (reg : RegistryState) (name : String) : Nat :=
  (reg.versions.filterMap
    (fun t => if t.1 = name then some t.2.1 else none)).foldl max 0 + 1

/-- Embedding of `mlflow.register_model(model_uri, model_name)`: record a
fresh model version for the name and return it. -/
def register_model (reg : RegistryState) (uri name : String) :
    RegistryState × ModelVersion :=
  let v := nextVersion reg name
  ({ reg with versions := (name, v, uri) :: reg.versions },
   { name := name, version := v, source := uri })

/-- Embedding of `client.set_registered_model_alias(name, alias, version)`:
rebind the alias of the model to the given version (the new binding
shadows any previous one). -/
def set_registered_model_alias (reg : RegistryState)
    (name al : String) (version : Nat) : RegistryState :=
  { reg with aliases := ((name, al), version) :: reg.aliases }

/-- Resolve an alias of a registered model to its current version: the
first (most recent) binding for the (name, al) key. -/
def resolveAlias (reg : RegistryState) (name al : String) : Option Nat :=
  (reg.aliases.find? (fun e => e.1 == (name, al))).map (fun e => e.2)

/-- Embedding of `mlflow.pyfunc.load_model("models:/NAME@ALIAS")`: succeeds
with the aliased version when the alias is bound, raises otherwise. -/
def load_model (reg : RegistryState) (name al : String) :
    Except String Nat :=
  match resolveAlias reg name al with
  | some v => Except.ok v
  | none =>
    Except.error ("Registered model alias " ++ al ++ " not found.")

/-- Cell-9: `mlflow.set_tracking_uri(mlruns_uri)` with the tutorial's
scratch path, then `mlflow.set_experiment("MLflow tutorial")`. -/
def cell9 (st : ProgState) : ProgState × List Event :=
  ({ st with
      trackingUri := some "/scratch/project_2001234/path/to/mlruns",
      experimentName := some "MLflow tutorial" },
   [Event.setTrackingUri, Event.setExperiment])

/-- One iteration of the cell-11 training loop: `mlflow.start_run()`,
`mlflow.set_tag("mlflow.runName", name)`, `model.fit(...)` (autologged,
producing a run with the given validation accuracy), `mlflow.end_run()`. -/
def trainOne (acc : ℚ) (name : String) (st : ProgState) :
    ProgState × List Event :=
  ({ st with
      runs := st.runs ++
        [{ run_id := "run" ++ toString st.runs.length,
           runName := name,
           validation_accuracy := some acc }] },
   [Event.startRun, Event.setTag, Event.fitModel, Event.endRun])

/-- Cell-11: `mlflow.autolog()`, then `os.environ['TF_CPP_MIN_LOG_LEVEL'] =
'3'`, then the `for model, name in models.items()` loop training
`3Layer_adagrad` and `3Layer_adam` in insertion order.  `acc1` and `acc2`
are the (unknown) validation accuracies the two trainings reach. -/
def cell11 (acc1 acc2 : ℚ) (st : ProgState) : ProgState × List Event :=
  let st0 := { st with
      autologOn := true,
      env := fun k =>
        if k = "TF_CPP_MIN_LOG_LEVEL" then some "3" else st.env k }
  let (st1, ev1) := trainOne acc1 "3Layer_adagrad" st0
  let (st2, ev2) := trainOne acc2 "3Layer_adam" st1
  (st2, Event.autolog :: (ev1 ++ ev2))

/-- The `try` block of cell-16: search the runs of the experiment, take the
run id with maximal `metrics.validation_accuracy`, search registered models
matching `name LIKE 'mnist%'`, raise `IndexError` when none match,
otherwise register `runs:/run_id` under the first matching name and set its
alias "challenger" to the new version.  Returns the updated registry and
the new model version, or the exception raised. -/
def tryBlock (st : ProgState) : Except TryError (RegistryState × ModelVersion) :=
  match idxmaxRun st.runs with
  | none =>
    Except.error (TryError.otherError "attempt to get argmax of an empty sequence")
  | some r =>
    match search_registered_models st.registry with
    | [] => Except.error TryError.indexError
    | m :: _ =>
      let p := register_model st.registry ("runs:/" ++ r.run_id) m
      Except.ok
        (set_registered_model_alias p.1 p.2.name "challenger" p.2.version,
         p.2)

/-- Message printed by the `except` clause of cell-16 that catches the
raised exception: the `IndexError` handler prints the fixed tutorial hint,
the generic `except Exception` handler prints the exception message. -/
def exceptMessage : TryError → String
  | TryError.indexError =>
    "No registered model found. Please go back and register the model in the MLflow UI first."
  | TryError.otherError e => "An exception occurred: " ++ e

/-- Library calls cell-16 performs before the outcome is decided:
`search_runs` always runs first; `search_registered_models` is reached only
when `idxmax` succeeded (and is called a second time on the success path to
read the model name), and `register_model` / `set_registered_model_alias`
run only on the success path. -/
def cell16Events : Except TryError (RegistryState × ModelVersion) → List Event
  | Except.error (TryError.otherError _) => [Event.searchRuns]
  | Except.error TryError.indexError =>
    [Event.searchRuns, Event.searchRegisteredModels]
  | Except.ok _ =>
    [Event.searchRuns, Event.searchRegisteredModels,
     Event.searchRegisteredModels, Event.registerModel, Event.setAlias]

/-- Cell-16 as executed: run the `try` block; on success commit the new
registry state and print nothing, on either exception leave the state
unchanged and print only the handler's message. -/
def cell16 (st : ProgState) : ProgState × List Event × List String :=
  match tryBlock st with
  | Except.ok p => ({ st with registry := p.1 }, cell16Events (Except.ok p), [])
  | Except.error e =>
    (st, cell16Events (Except.error e), [exceptMessage e])

/-- Result of executing the notebook top to bottom: the final program
state, the trace of library operations, what cell-16 printed, and the
message of an exception that propagated uncaught (only cell-19's
`load_model` can raise one; cell-16 catches all of its own). -/
structure NotebookResult where
  state : ProgState
  trace : List Event
  printed : List String
  uncaught : Option String

/-- The executable cells of the notebook in order: cell-9 (tracking URI and
experiment), cell-11 (autolog and the two training runs), cell-16 (API
registration inside try/except), cell-19 (`load_model` of
`mnist_classifier` by alias `champion`, then `interface.launch()`).  A
`load_model` failure in cell-19 is uncaught and aborts before the launch. -/
def runNotebook (acc1 acc2 : ℚ) (init : ProgState) : NotebookResult :=
  let p9 := cell9 init
  let p11 := cell11 acc1 acc2 p9.1
  let p16 := cell16 p11.1
  match load_model p16.1.registry "mnist_classifier" "champion" with
  | Except.ok _ =>
    { state := p16.1,
      trace := p9.2 ++ p11.2 ++ p16.2.1 ++ [Event.loadModel, Event.launchUI],
      printed := p16.2.2,
      uncaught := none }
  | Except.error m =>
    { state := p16.1,
      trace := p9.2 ++ p11.2 ++ p16.2.1 ++ [Event.loadModel],
      printed := p16.2.2,
      uncaught := some m }

/-- A numpy ndarray in C (row-major) order: a shape and the flat data.
Only the shape structure matters to the claims; entries are rationals
standing for the float64 values. -/
structure NDArray where
  shape : List Nat
  data : Nat → ℚ

/-- Embedding of `composite_image / 255.0` in `classify`: elementwise
division leaving the shape unchanged. -/
def normalize (a : NDArray) : NDArray :=
  { a with data := fun i => a.data i / 255 }

/-- Size of the last axis, i.e. `composite_image.shape[-1]`. -/
def lastDim (a : NDArray) : Nat :=
  a.shape.getLastD 0

/-- Embedding of `np.mean(composite_image[..., :3], axis=-1)` on an array
whose last axis has size 4 (RGBA): average the first three channels,
dropping the last axis.  In C order the element at flat index `k` of the
result averages flat indices `4k`, `4k+1`, `4k+2` of the input. -/
def meanFirst3 (a : NDArray) : NDArray :=
  { shape := a.shape.dropLast,
    data := fun k => (a.data (4 * k) + a.data (4 * k + 1) + a.data (4 * k + 2)) / 3 }

/-- Embedding of `np.mean(composite_image, axis=-1)` on an array whose last
axis has size 3 (RGB): average the three channels, dropping the last
axis. -/
def meanAll3 (a : NDArray) : NDArray :=
  { shape := a.shape.dropLast,
    data := fun k => (a.data (3 * k) + a.data (3 * k + 1) + a.data (3 * k + 2)) / 3 }

/-- The channel-reduction step of `classify`: grayscale conversion when
`shape[-1]` is 4 (drop alpha, average RGB) or 3 (average RGB), identity
otherwise — exactly the `if`/`elif` of the source. -/
def toGrayscale (a : NDArray) : NDArray :=
  if lastDim a = 4 then meanFirst3 a
  else if lastDim a = 3 then meanAll3 a
  else a

/-- Embedding of `resize(composite_image, (28, 28), anti_aliasing=True)`:
per the skimage contract the first two axes become 28 × 28 and any
remaining axes are kept; the interpolated pixel values are opaque, supplied
by the abstract `resizeData` parameter. -/
def resize28 (resizeData : NDArray → Nat → ℚ) (a : NDArray) : NDArray :=
  { shape := 28 :: 28 :: a.shape.drop 2, data := resizeData a }

/-- Embedding of `np.reshape(composite_image, (1, 28, 28))`: succeeds with
the same flat data under shape (1, 28, 28) when the element count is
1·28·28 = 784, raises `ValueError` otherwise. -/
def reshape_1_28_28 (a : NDArray) : Except String NDArray :=
  if a.shape.prod = 784 then Except.ok { shape := [1, 28, 28], data := a.data }
  else Except.error "cannot reshape array into shape (1,28,28)"

/-- The `classify` function of cell-19: normalize the composite image to
[0,1], reduce 3- or 4-channel images to grayscale, resize to 28 × 28,
reshape to (1, 28, 28), run the loaded model on it and return the dict
`\x7bstr(i): prediction[i] for i in range(10)\x7d` as an association list.
`predictScore` abstracts `model.predict(...).tolist()[0]`, the loaded
model's score vector on the processed input. -/
def classify (resizeData : NDArray → Nat → ℚ)
    (predictScore : NDArray → Nat → ℚ) (image : NDArray) :
    Except String (List (String × ℚ)) :=
  match reshape_1_28_28 (resize28 resizeData (toGrayscale (normalize image))) with
  | Except.error e => Except.error e
  | Except.ok x =>
    Except.ok ((List.range 10).map (fun i => (toString i, predictScore x i)))

/-- Position of each demonstrated operation in the spec's narrative order:
tracking URI first, then autologged training, then model registration, then
alias assignment, then loading by alias, then the demo UI.  Operations the
spec sequence does not mention are unranked. -/
def stage : Event → Option Nat
  | Event.setTrackingUri => some 0
  | Event.autolog => some 1
  | Event.startRun => some 1
  | Event.setTag => some 1
  | Event.fitModel => some 1
  | Event.endRun => some 1
  | Event.registerModel => some 2
  | Event.setAlias => some 3
  | Event.loadModel => some 4
  | Event.launchUI => some 5
  | _ => none

/-- Concrete empty registry, used as a starting point for evaluation. -/
def emptyRegistry : RegistryState :=
  { models := [], versions := [], aliases := [] }

/-- Concrete initial program state before any cell has executed: nothing
configured, no runs, empty registry, empty environment. -/
def initState : ProgState :=
  { trackingUri := none, experimentName := none, env := fun _ => none,
    autologOn := false, runs := [], registry := emptyRegistry }

/-- Registry as prepared by following the tutorial's UI steps: the
`3Layer_adagrad` run registered as `mnist_classifier` with version 1
carrying the alias `champion`. -/
def mnistRegistry : RegistryState :=
  { models := ["mnist_classifier"],
    versions := [("mnist_classifier", 1, "runs:/uiRun")],
    aliases := [(("mnist_classifier", "champion"), 1)] }

/-- Initial program state after the tutorial's UI registration steps. -/
def readyState : ProgState :=
  { initState with registry := mnistRegistry }

/- Helper lemmas -/

theorem listMax_eq_none {l : List ℚ} : listMax l = none ↔ l = [] := by
  cases l with
  | nil => simp [listMax]
  | cons q qs =>
    simp only [listMax]
    cases listMax qs <;> simp

theorem le_listMax {l : List ℚ} {m q : ℚ} (hm : listMax l = some m)
    (hq : q ∈ l) : q ≤ m := by
  induction l generalizing m with
  | nil => cases hq
  | cons x xs ih =>
    simp only [listMax] at hm
    cases hxs : listMax xs with
    | none =>
      rw [hxs] at hm
      simp only [Option.some.injEq] at hm
      subst hm
      rcases List.mem_cons.1 hq with rfl | hmem
      · exact le_refl q
      · rw [listMax_eq_none.1 hxs] at hmem
        cases hmem
    | some mx =>
      rw [hxs] at hm
      simp only [Option.some.injEq] at hm
      subst hm
      rcases List.mem_cons.1 hq with rfl | hmem
      · exact le_max_left q mx
      · exact le_trans (ih hxs hmem) (le_max_right x mx)

/-- Specification of the `idxmax` row selection: the selected run is one of
the searched runs and its logged `validation_accuracy` is maximal among all
runs that logged one. -/
theorem idxmaxRun_spec {runs : List Run} {r : Run}
    (h : idxmaxRun runs = some r) :
    r ∈ runs ∧ ∃ m, r.validation_accuracy = some m ∧
      ∀ r' ∈ runs, ∀ q, r'.validation_accuracy = some q → q ≤ m := by
  unfold idxmaxRun at h
  cases hmax : listMax (runs.filterMap fun r => r.validation_accuracy) with
  | none => rw [hmax] at h; cases h
  | some m =>
    rw [hmax] at h
    refine ⟨List.mem_of_find?_eq_some h, m, ?_, ?_⟩
    · have hp := List.find?_some h
      exact eq_of_beq hp
    · intro r' hr' q hq
      exact le_listMax hmax (List.mem_filterMap.2 ⟨r', hr', hq⟩)

theorem resolveAlias_set_same (reg : RegistryState) (n al : String) (v : Nat) :
    resolveAlias (set_registered_model_alias reg n al v) n al = some v := by
  simp [resolveAlias, set_registered_model_alias, List.find?]

theorem resolveAlias_set_ne (reg : RegistryState) (n al : String) (v : Nat)
    {n' al' : String} (h : (n', al') ≠ (n, al)) :
    resolveAlias (set_registered_model_alias reg n al v) n' al' =
      resolveAlias reg n' al' := by
  simp only [resolveAlias, set_registered_model_alias, List.find?]
  have : ¬ (((n, al) : String × String) == (n', al')) = true := by
    simp only [beq_iff_eq]
    exact fun he => h (he ▸ rfl)
  simp [this]

theorem resolveAlias_register_model (reg : RegistryState) (uri name : String)
    (n al : String) :
    resolveAlias (register_model reg uri name).1 n al = resolveAlias reg n al := by
  simp [resolveAlias, register_model]

/-- Claim C1.  The only error handling is the try/except of cell-16: when
the `try` block raises, cell-16 leaves the program state unchanged (no
recovery), performs no registration or alias call after the catch (no
retry), and its entire output is the single handler message — the fixed
hint for `IndexError`, the exception text for the generic `except` — while
an error raised by any other cell (cell-19's `load_model` is the only
fallible one) propagates uncaught. -/
theorem cell16_catches_and_only_prints (st : ProgState) (e : TryError)
    (h : tryBlock st = Except.error e) :
    (cell16 st).1 = st ∧
    (cell16 st).2.2 = [exceptMessage e] ∧
    exceptMessage TryError.indexError =
      "No registered model found. Please go back and register the model in the MLflow UI first." ∧
    (∀ msg, exceptMessage (TryError.otherError msg) =
      "An exception occurred: " ++ msg) ∧
    (cell16 st).2.1.count Event.registerModel = 0 ∧
    (cell16 st).2.1.count Event.setAlias = 0 ∧
    (∀ acc1 acc2 init m,
      load_model (cell16 (cell11 acc1 acc2 (cell9 init).1).1).1.registry
          "mnist_classifier" "champion" = Except.error m →
      (runNotebook acc1 acc2 init).uncaught = some m) := by
  refine ⟨?_, ?_, rfl, fun msg => rfl, ?_, ?_, ?_⟩
  · simp [cell16, h]
  · simp [cell16, h]
  · cases e <;> simp [cell16, h, cell16Events]
  · cases e <;> simp [cell16, h, cell16Events]
  · intro acc1 acc2 init m hm
    simp only [runNotebook]
    rw [hm]

/-- Claim C1 witness: on a state with no runs the `try` block raises the
pandas `idxmax` error, and cell-16 swallows it, printing only the generic
handler message. -/
theorem cell16_catches_and_only_prints_witness :
    tryBlock initState =
      Except.error (TryError.otherError "attempt to get argmax of an empty sequence") ∧
    (cell16 initState).1 = initState ∧
    (cell16 initState).2.2 =
      ["An exception occurred: attempt to get argmax of an empty sequence"] := by
  refine ⟨rfl, ?_, ?_⟩
  · exact (cell16_catches_and_only_prints initState _ rfl).1
  · exact (cell16_catches_and_only_prints initState _ rfl).2.1

/-- Concrete state with one autologged run, used to evaluate theorems. -/
def oneRunState : ProgState :=
  { initState with runs := [⟨"run0", "3Layer_adagrad", some 1⟩] }

/-- Concrete state after the UI registration and one autologged run. -/
def c2State : ProgState :=
  { readyState with runs := [⟨"run0", "3Layer_adagrad", some 1⟩] }

/-- The registry that cell-16 produces from `c2State`: version 2 of
`mnist_classifier` registered from the run and aliased `challenger`. -/
def c2Registry : RegistryState :=
  { models := ["mnist_classifier"],
    versions := [("mnist_classifier", 2, "runs:/run0"),
                 ("mnist_classifier", 1, "runs:/uiRun")],
    aliases := [(("mnist_classifier", "challenger"), 2),
                (("mnist_classifier", "champion"), 1)] }

/-- Claim C2.  When the cell-16 `try` block succeeds, the registered run is
one with maximal `metrics.validation_accuracy` among all searched runs, the
model name is the first existing registered model matching the
`name LIKE 'mnist%'` filter, the returned model version is the freshly
created one, and the alias `challenger` of that model resolves to exactly
`mv.version` while every other alias binding is untouched. -/
theorem registration_selects_best_run (st : ProgState)
    (reg' : RegistryState) (mv : ModelVersion)
    (h : tryBlock st = Except.ok (reg', mv)) :
    (∃ r, r ∈ st.runs ∧ idxmaxRun st.runs = some r ∧
      mv.source = "runs:/" ++ r.run_id ∧
      ∃ m, r.validation_accuracy = some m ∧
        ∀ r' ∈ st.runs, ∀ q, r'.validation_accuracy = some q → q ≤ m) ∧
    (∃ rest, search_registered_models st.registry = mv.name :: rest) ∧
    likeMnist mv.name = true ∧
    mv.name ∈ st.registry.models ∧
    mv.version = nextVersion st.registry mv.name ∧
    (mv.name, mv.version, mv.source) ∈ reg'.versions ∧
    resolveAlias reg' mv.name "challenger" = some mv.version ∧
    (∀ n al, (n, al) ≠ (mv.name, "challenger") →
      resolveAlias reg' n al = resolveAlias st.registry n al) := by
  obtain ⟨r, hidx⟩ : ∃ r, idxmaxRun st.runs = some r := by
    unfold tryBlock at h
    cases hx : idxmaxRun st.runs with
    | none => rw [hx] at h; cases h
    | some r => exact ⟨r, rfl⟩
  obtain ⟨m0, rest, hs⟩ :
      ∃ m0 rest, search_registered_models st.registry = m0 :: rest := by
    unfold tryBlock at h
    rw [hidx] at h
    cases hx : search_registered_models st.registry with
    | nil => rw [hx] at h; cases h
    | cons a l => exact ⟨a, l, rfl⟩
  have h' :
      @Except.ok TryError _
        (set_registered_model_alias
            (register_model st.registry ("runs:/" ++ r.run_id) m0).1
            (register_model st.registry ("runs:/" ++ r.run_id) m0).2.name
            "challenger"
            (register_model st.registry ("runs:/" ++ r.run_id) m0).2.version,
         (register_model st.registry ("runs:/" ++ r.run_id) m0).2) =
        Except.ok (reg', mv) := by
    rw [← h]
    unfold tryBlock
    rw [hidx, hs]
  simp only [Except.ok.injEq, Prod.mk.injEq] at h'
  obtain ⟨hreg, hmv⟩ := h'
  subst hmv
  subst hreg
  obtain ⟨hrmem, m, hm, hmax⟩ := idxmaxRun_spec hidx
  have hs' : st.registry.models.filter (fun n => likeMnist n) = m0 :: rest := hs
  have hm0 : m0 ∈ st.registry.models.filter (fun n => likeMnist n) := by
    rw [hs']
    exact List.mem_cons_self m0 rest
  refine ⟨⟨r, hrmem, hidx, rfl, m, hm, hmax⟩, ⟨rest, hs⟩,
    List.of_mem_filter hm0, List.mem_of_mem_filter hm0, rfl, ?_, ?_, ?_⟩
  · simp [set_registered_model_alias, register_model]
  · exact resolveAlias_set_same _ _ _ _
  · intro n al hne
    rw [resolveAlias_set_ne _ _ _ _ hne]
    exact resolveAlias_register_model _ _ _ _ _

/-- Claim C2 witness: with one run of accuracy 1 and the UI-registered
`mnist_classifier` in the registry, the `try` block succeeds, and
`challenger` is bound to exactly the new version 2. -/
theorem registration_selects_best_run_witness :
    tryBlock c2State =
      Except.ok (c2Registry, ⟨"mnist_classifier", 2, "runs:/run0"⟩) ∧
    resolveAlias c2Registry "mnist_classifier" "challenger" = some 2 := by
  have h : tryBlock c2State =
      Except.ok (c2Registry, ⟨"mnist_classifier", 2, "runs:/run0"⟩) := by rfl
  exact ⟨h, (registration_selects_best_run c2State c2Registry
    ⟨"mnist_classifier", 2, "runs:/run0"⟩ h).2.2.2.2.2.2.1⟩

/-- Claim C3.  When the run search succeeded but no registered model
matches `name LIKE 'mnist%'`, cell-16 raises `IndexError` before
`register_model` or `set_registered_model_alias` is reached: the whole
program state (registry included) is unchanged, neither call is performed,
and only the friendly hint is printed. -/
theorem empty_search_registers_nothing (st : ProgState) (r : Run)
    (h1 : idxmaxRun st.runs = some r)
    (h2 : search_registered_models st.registry = []) :
    tryBlock st = Except.error TryError.indexError ∧
    (cell16 st).1 = st ∧
    (cell16 st).2.1.count Event.registerModel = 0 ∧
    (cell16 st).2.1.count Event.setAlias = 0 ∧
    (cell16 st).2.2 = [exceptMessage TryError.indexError] := by
  have htb : tryBlock st = Except.error TryError.indexError := by
    unfold tryBlock
    rw [h1, h2]
  refine ⟨htb, ?_, ?_, ?_, ?_⟩ <;> simp [cell16, htb, cell16Events]

/-- Claim C3 witness: a state with one searched run and an empty registry
takes exactly the `IndexError` path and leaves the state unchanged. -/
theorem empty_search_registers_nothing_witness :
    idxmaxRun oneRunState.runs =
      some ⟨"run0", "3Layer_adagrad", some 1⟩ ∧
    search_registered_models oneRunState.registry = [] ∧
    tryBlock oneRunState = Except.error TryError.indexError ∧
    (cell16 oneRunState).1 = oneRunState := by
  refine ⟨rfl, rfl, ?_, ?_⟩
  · exact (empty_search_registers_nothing oneRunState
      ⟨"run0", "3Layer_adagrad", some 1⟩ rfl rfl).1
  · exact (empty_search_registers_nothing oneRunState
      ⟨"run0", "3Layer_adagrad", some 1⟩ rfl rfl).2.1

/-- Shape of the notebook's operation trace: the fixed cell-9/cell-11
prefix (one `start_run` per trained model), one of the three cell-16 event
lists depending on which path the try/except took, and the cell-19 suffix
with `launchUI` present exactly when `load_model` succeeded. -/
theorem runNotebook_trace (acc1 acc2 : ℚ) (init : ProgState) :
    ∃ c ld, (runNotebook acc1 acc2 init).trace =
      ([Event.setTrackingUri, Event.setExperiment, Event.autolog,
        Event.startRun, Event.setTag, Event.fitModel, Event.endRun,
        Event.startRun, Event.setTag, Event.fitModel, Event.endRun] ++ c) ++ ld ∧
      (c = [Event.searchRuns] ∨
       c = [Event.searchRuns, Event.searchRegisteredModels] ∨
       c = [Event.searchRuns, Event.searchRegisteredModels,
            Event.searchRegisteredModels, Event.registerModel, Event.setAlias]) ∧
      (ld = [Event.loadModel] ∨ ld = [Event.loadModel, Event.launchUI]) := by
  have hc : (cell16 (cell11 acc1 acc2 (cell9 init).1).1).2.1 = [Event.searchRuns] ∨
      (cell16 (cell11 acc1 acc2 (cell9 init).1).1).2.1 =
        [Event.searchRuns, Event.searchRegisteredModels] ∨
      (cell16 (cell11 acc1 acc2 (cell9 init).1).1).2.1 =
        [Event.searchRuns, Event.searchRegisteredModels,
         Event.searchRegisteredModels, Event.registerModel, Event.setAlias] := by
    cases h : tryBlock (cell11 acc1 acc2 (cell9 init).1).1 with
    | ok p =>
      right; right
      simp [cell16, h, cell16Events]
    | error e =>
      cases e with
      | indexError =>
        right; left
        simp [cell16, h, cell16Events]
      | otherError msg =>
        left
        simp [cell16, h, cell16Events]
  cases hl : load_model (cell16 (cell11 acc1 acc2 (cell9 init).1).1).1.registry
      "mnist_classifier" "champion" with
  | ok v =>
    refine ⟨(cell16 (cell11 acc1 acc2 (cell9 init).1).1).2.1,
      [Event.loadModel, Event.launchUI], ?_, hc, Or.inr rfl⟩
    simp only [runNotebook]
    rw [hl]
    simp [cell9, cell11, trainOne]
  | error m =>
    refine ⟨(cell16 (cell11 acc1 acc2 (cell9 init).1).1).2.1,
      [Event.loadModel], ?_, hc, Or.inl rfl⟩
    simp only [runNotebook]
    rw [hl]
    simp [cell9, cell11, trainOne]

/-- Claim C4 counterexample.  The claim that every delegated library
operation is invoked at most once per execution fails on the code:
cell-11's `for model, name in models.items()` loop calls
`mlflow.start_run()` once per model, so a run of the notebook (here from
the empty initial state, with accuracies 1 and 2) starts a run twice. -/
theorem start_run_not_at_most_once :
    ¬ ((runNotebook 1 2 initState).trace.count Event.startRun ≤ 1) := by
  obtain ⟨c, ld, htr, hc, hld⟩ := runNotebook_trace 1 2 initState
  rw [htr]
  rcases hc with rfl | rfl | rfl <;> rcases hld with rfl | rfl <;> decide

/-- Claim C4 as amended.  Each delegated library operation from the spec's
list, except starting a run, is invoked at most once per execution:
autologging, searching runs and loading a model happen exactly once,
registering a model and setting an alias at most once, and a REST serving
endpoint never; `mlflow.start_run` alone is invoked inside the cell-11
training loop, exactly once per trained model, i.e. twice. -/
theorem library_calls_single_except_start_run (acc1 acc2 : ℚ)
    (init : ProgState) :
    (runNotebook acc1 acc2 init).trace.count Event.startRun = 2 ∧
    (runNotebook acc1 acc2 init).trace.count Event.autolog = 1 ∧
    (runNotebook acc1 acc2 init).trace.count Event.searchRuns = 1 ∧
    (runNotebook acc1 acc2 init).trace.count Event.registerModel ≤ 1 ∧
    (runNotebook acc1 acc2 init).trace.count Event.setAlias ≤ 1 ∧
    (runNotebook acc1 acc2 init).trace.count Event.loadModel = 1 ∧
    (runNotebook acc1 acc2 init).trace.count Event.serveRest = 0 := by
  obtain ⟨c, ld, htr, hc, hld⟩ := runNotebook_trace acc1 acc2 init
  rw [htr]
  rcases hc with rfl | rfl | rfl <;> rcases hld with rfl | rfl <;> exact by decide

/-- Claim C6.  The demonstrated operations happen in the spec's narrative
order — tracking URI, autologged training runs, model registration, alias
assignment, loading by alias, demo UI — on every execution path: the trace
restricted to the ranked operations is monotone in rank. -/
theorem operations_in_narrative_order (acc1 acc2 : ℚ) (init : ProgState) :
    List.Chain' (fun a b => a ≤ b)
      ((runNotebook acc1 acc2 init).trace.filterMap stage) := by
  obtain ⟨c, ld, htr, hc, hld⟩ := runNotebook_trace acc1 acc2 init
  rw [htr]
  rcases hc with rfl | rfl | rfl <;> rcases hld with rfl | rfl <;>
    norm_num [stage, List.filterMap_cons, List.chain'_cons]

/-- Claim C9.  No execution path of the notebook starts an
`mlflow models serve` REST endpoint: the operation trace never contains a
`serveRest` event. -/
theorem no_rest_endpoint_started (acc1 acc2 : ℚ) (init : ProgState) :
    (runNotebook acc1 acc2 init).trace.count Event.serveRest = 0 := by
  obtain ⟨c, ld, htr, hc, hld⟩ := runNotebook_trace acc1 acc2 init
  rw [htr]
  rcases hc with rfl | rfl | rfl <;> rcases hld with rfl | rfl <;> exact by decide

/-- A sequence of alias assignments (model name, alias, version), applied
left to right with `set_registered_model_alias` — e.g. `champion` set in
the UI followed by `challenger` set by cell-16. -/
def applyAliasOps (reg : RegistryState)
    (ops : List (String × String × Nat)) : RegistryState :=
  ops.foldl (fun r op => set_registered_model_alias r op.1 op.2.1 op.2.2) reg

/-- The version assigned by the last operation of the sequence that
targets the given (model name, alias) pair, if any. -/
def lastAssign : List (String × String × Nat) → String → String → Option Nat
  | [], _, _ => none
  | op :: rest, n, al =>
    match lastAssign rest n al with
    | some v => some v
    | none => if (op.1, op.2.1) = (n, al) then some op.2.2 else none

theorem applyAliasOps_no_assign :
    ∀ (ops : List (String × String × Nat)) (n al : String),
      lastAssign ops n al = none →
      ∀ reg, resolveAlias (applyAliasOps reg ops) n al = resolveAlias reg n al := by
  intro ops
  induction ops with
  | nil => intro n al _ reg; rfl
  | cons op rest ih =>
    intro n al h reg
    simp only [lastAssign] at h
    cases hr : lastAssign rest n al with
    | some v => rw [hr] at h; cases h
    | none =>
      rw [hr] at h
      by_cases hc : (op.1, op.2.1) = (n, al)
      · rw [if_pos hc] at h; cases h
      · show resolveAlias
            (applyAliasOps (set_registered_model_alias reg op.1 op.2.1 op.2.2) rest)
            n al = resolveAlias reg n al
        rw [ih n al hr]
        exact resolveAlias_set_ne _ _ _ _ (fun he => hc he.symm)

theorem resolveAlias_applyAliasOps :
    ∀ (ops : List (String × String × Nat)) (n al : String) (v : Nat),
      lastAssign ops n al = some v →
      ∀ reg, resolveAlias (applyAliasOps reg ops) n al = some v := by
  intro ops
  induction ops with
  | nil => intro n al v h; cases h
  | cons op rest ih =>
    intro n al v h reg
    simp only [lastAssign] at h
    cases hr : lastAssign rest n al with
    | some w =>
      rw [hr] at h
      exact ih n al v (hr.trans h) _
    | none =>
      rw [hr] at h
      by_cases hc : (op.1, op.2.1) = (n, al)
      · rw [if_pos hc] at h
        have hn : op.1 = n := congrArg Prod.fst hc
        have hal : op.2.1 = al := congrArg Prod.snd hc
        have hv : op.2.2 = v := Option.some_inj.1 h
        show resolveAlias
            (applyAliasOps (set_registered_model_alias reg op.1 op.2.1 op.2.2) rest)
            n al = some v
        rw [applyAliasOps_no_assign rest n al hr, hn, hal, hv]
        exact resolveAlias_set_same _ _ _ _
      · rw [if_neg hc] at h; cases h

/-- Decomposition of a successful cell-16 `try` block: a maximal run and a
matching model name exist, and the result is the registry after
`register_model` followed by `set_registered_model_alias` on the fresh
version. -/
theorem tryBlock_ok_shape {st : ProgState} {reg' : RegistryState}
    {mv : ModelVersion} (h : tryBlock st = Except.ok (reg', mv)) :
    ∃ r m0 rest, idxmaxRun st.runs = some r ∧
      search_registered_models st.registry = m0 :: rest ∧
      reg' = set_registered_model_alias
          (register_model st.registry ("runs:/" ++ r.run_id) m0).1
          (register_model st.registry ("runs:/" ++ r.run_id) m0).2.name
          "challenger"
          (register_model st.registry ("runs:/" ++ r.run_id) m0).2.version ∧
      mv = (register_model st.registry ("runs:/" ++ r.run_id) m0).2 := by
  obtain ⟨r, hidx⟩ : ∃ r, idxmaxRun st.runs = some r := by
    unfold tryBlock at h
    cases hx : idxmaxRun st.runs with
    | none => rw [hx] at h; cases h
    | some r => exact ⟨r, rfl⟩
  obtain ⟨m0, rest, hs⟩ :
      ∃ m0 rest, search_registered_models st.registry = m0 :: rest := by
    unfold tryBlock at h
    rw [hidx] at h
    cases hx : search_registered_models st.registry with
    | nil => rw [hx] at h; cases h
    | cons a l => exact ⟨a, l, rfl⟩
  have h' :
      @Except.ok TryError _
        (set_registered_model_alias
            (register_model st.registry ("runs:/" ++ r.run_id) m0).1
            (register_model st.registry ("runs:/" ++ r.run_id) m0).2.name
            "challenger"
            (register_model st.registry ("runs:/" ++ r.run_id) m0).2.version,
         (register_model st.registry ("runs:/" ++ r.run_id) m0).2) =
        Except.ok (reg', mv) := by
    rw [← h]
    unfold tryBlock
    rw [hidx, hs]
  simp only [Except.ok.injEq, Prod.mk.injEq] at h'
  exact ⟨r, m0, rest, hidx, hs, h'.1.symm, h'.2.symm⟩

/-- The registry seen by cell-16 is the initial one: cell-9 and cell-11
never touch the registry. -/
theorem pre_cell16_registry (acc1 acc2 : ℚ) (init : ProgState) :
    (cell11 acc1 acc2 (cell9 init).1).1.registry = init.registry := by
  simp [cell9, cell11, trainOne]

/-- Cell-16 never rebinds an alias other than `challenger`, on any path. -/
theorem cell16_preserves_other_aliases (st : ProgState) (n al : String)
    (hal : al ≠ "challenger") :
    resolveAlias (cell16 st).1.registry n al = resolveAlias st.registry n al := by
  cases htb : tryBlock st with
  | error e => simp [cell16, htb]
  | ok p =>
    obtain ⟨r, m0, rest, hidx, hs, hreg, hmv⟩ :=
      @tryBlock_ok_shape st p.1 p.2 htb
    have hc16 : (cell16 st).1.registry = p.1 := by simp [cell16, htb]
    rw [hc16, hreg,
      resolveAlias_set_ne _ _ _ _
        (fun he => hal (congrArg Prod.snd he)),
      resolveAlias_register_model]

/-- Cell-16 never changes the process environment, on any path. -/
theorem cell16_env (st : ProgState) : (cell16 st).1.env = st.env := by
  cases htb : tryBlock st with
  | error e => simp [cell16, htb]
  | ok p => simp [cell16, htb]

/-- The final notebook state is the state after cell-16 on both cell-19
outcomes (cell-19 only loads a model and launches the demo UI). -/
theorem notebook_state_is_post_cell16 (acc1 acc2 : ℚ) (init : ProgState) :
    (runNotebook acc1 acc2 init).state =
      (cell16 (cell11 acc1 acc2 (cell9 init).1).1).1 := by
  simp only [runNotebook]
  cases load_model (cell16 (cell11 acc1 acc2 (cell9 init).1).1).1.registry
      "mnist_classifier" "champion" <;> rfl

/-- Claim C5.  An alias is a mutable label bound to exactly one model
version at a time: after any sequence of alias assignments, an alias that
was assigned resolves to exactly the version of its last assignment —
there is exactly one such version, and in particular re-assigning an alias
rebinds it (the second assignment wins) rather than binding it to several
versions. -/
theorem alias_bound_to_one_version (reg : RegistryState)
    (ops : List (String × String × Nat)) (n al : String) (v : Nat)
    (h : lastAssign ops n al = some v) :
    resolveAlias (applyAliasOps reg ops) n al = some v ∧
    (∀ w, resolveAlias (applyAliasOps reg ops) n al = some w → w = v) ∧
    (∀ reg' n' al' v1 v2,
      resolveAlias
        (set_registered_model_alias
          (set_registered_model_alias reg' n' al' v1) n' al' v2) n' al' =
        some v2) := by
  have main := resolveAlias_applyAliasOps ops n al v h reg
  refine ⟨main, ?_, ?_⟩
  · intro w hw
    rw [main] at hw
    exact (Option.some_inj.1 hw).symm
  · intro reg' n' al' v1 v2
    exact resolveAlias_set_same _ _ _ _

/-- Claim C5 witness: setting `champion` in the UI and then rebinding it
via the API leaves it bound to exactly the second version. -/
theorem alias_bound_to_one_version_witness :
    lastAssign [("mnist_classifier", "champion", 1),
                ("mnist_classifier", "champion", 2)]
      "mnist_classifier" "champion" = some 2 ∧
    resolveAlias
      (applyAliasOps emptyRegistry
        [("mnist_classifier", "champion", 1),
         ("mnist_classifier", "champion", 2)])
      "mnist_classifier" "champion" = some 2 := by
  refine ⟨rfl, ?_⟩
  exact (alias_bound_to_one_version emptyRegistry
    [("mnist_classifier", "champion", 1), ("mnist_classifier", "champion", 2)]
    "mnist_classifier" "champion" 2 rfl).1

/-- Claim C7.  Under the tutorial's precondition — a model registered as
`mnist_classifier` whose alias `champion` is bound — the notebook executes
top to bottom with no uncaught exception: cell-16 catches all of its own
failures and cell-19's `load_model` succeeds, so nothing propagates. -/
theorem notebook_completes_without_uncaught (acc1 acc2 : ℚ)
    (init : ProgState) (v : Nat)
    (h : resolveAlias init.registry "mnist_classifier" "champion" = some v) :
    (runNotebook acc1 acc2 init).uncaught = none := by
  have hreg : resolveAlias
      (cell16 (cell11 acc1 acc2 (cell9 init).1).1).1.registry
      "mnist_classifier" "champion" = some v := by
    rw [cell16_preserves_other_aliases _ _ _ (by decide),
      pre_cell16_registry]
    exact h
  have hload : load_model
      (cell16 (cell11 acc1 acc2 (cell9 init).1).1).1.registry
      "mnist_classifier" "champion" = Except.ok v := by
    simp [load_model, hreg]
  simp only [runNotebook]
  rw [hload]

/-- Claim C7 witness: starting from the state prepared by the tutorial's
UI steps (champion alias bound to version 1 of `mnist_classifier`), the
whole notebook runs without an uncaught exception. -/
theorem notebook_completes_without_uncaught_witness :
    resolveAlias readyState.registry "mnist_classifier" "champion" = some 1 ∧
    (runNotebook 1 2 readyState).uncaught = none := by
  refine ⟨rfl, ?_⟩
  exact notebook_completes_without_uncaught 1 2 readyState 1 rfl

/-- Claim C8.  The program sets exactly one environment variable,
`TF_CPP_MIN_LOG_LEVEL`, to the string `3`, and every other environment
variable still has its initial value in the final state. -/
theorem env_sets_only_tf_log_level (acc1 acc2 : ℚ) (init : ProgState) :
    (runNotebook acc1 acc2 init).state.env "TF_CPP_MIN_LOG_LEVEL" = some "3" ∧
    ∀ k, k ≠ "TF_CPP_MIN_LOG_LEVEL" →
      (runNotebook acc1 acc2 init).state.env k = init.env k := by
  rw [notebook_state_is_post_cell16, cell16_env]
  have henv : (cell11 acc1 acc2 (cell9 init).1).1.env =
      fun k => if k = "TF_CPP_MIN_LOG_LEVEL" then some "3" else init.env k := by
    simp [cell11, trainOne, cell9]
  rw [henv]
  exact ⟨by simp, fun k hk => by simp [hk]⟩

/-- Claim C8 witness: from the empty environment the final state holds the
flag, and an unrelated variable such as `PATH` is untouched. -/
theorem env_sets_only_tf_log_level_witness :
    (runNotebook 1 2 initState).state.env "TF_CPP_MIN_LOG_LEVEL" = some "3" ∧
    ("PATH" ≠ "TF_CPP_MIN_LOG_LEVEL" ∧
      (runNotebook 1 2 initState).state.env "PATH" = initState.env "PATH") := by
  refine ⟨(env_sets_only_tf_log_level 1 2 initState).1, by decide, ?_⟩
  exact (env_sets_only_tf_log_level 1 2 initState).2 "PATH" (by decide)

/-- Claim C10.  Whenever `classify` accepts an input (returns without
raising), its result is a dictionary whose keys are exactly the ten digit
strings `0` … `9`, each mapped to the loaded model's prediction score for
that digit on the processed image — the input normalized to [0,1], reduced
to grayscale when its last axis has 3 or 4 channels, resized to 28 × 28
and reshaped to (1, 28, 28). -/
theorem classify_returns_digit_score_dict
    (resizeData predictScore : NDArray → Nat → ℚ) (image : NDArray)
    (d : List (String × ℚ))
    (h : classify resizeData predictScore image = Except.ok d) :
    d.map Prod.fst = ["0", "1", "2", "3", "4", "5", "6", "7", "8", "9"] ∧
    ∃ x, reshape_1_28_28 (resize28 resizeData (toGrayscale (normalize image))) =
        Except.ok x ∧
      x.shape = [1, 28, 28] ∧
      d = (List.range 10).map (fun i => (toString i, predictScore x i)) := by
  unfold classify at h
  cases hre : reshape_1_28_28 (resize28 resizeData (toGrayscale (normalize image))) with
  | error e => rw [hre] at h; cases h
  | ok x =>
    rw [hre] at h
    simp only [Except.ok.injEq] at h
    subst h
    have hsh : x.shape = [1, 28, 28] := by
      unfold reshape_1_28_28 at hre
      by_cases hp : (resize28 resizeData (toGrayscale (normalize image))).shape.prod = 784
      · rw [if_pos hp] at hre
        cases hre
        rfl
      · rw [if_neg hp] at hre
        cases hre
    refine ⟨?_, x, rfl, hsh, rfl⟩
    rw [List.map_map]
    show (List.range 10).map (fun i => toString i) =
      ["0", "1", "2", "3", "4", "5", "6", "7", "8", "9"]
    decide

/-- Claim C10 witness: a 2 × 2 RGB image is accepted, and `classify`
returns the digit-keyed dictionary of prediction scores. -/
theorem classify_returns_digit_score_dict_witness :
    classify (fun _ _ => 0) (fun _ _ => 0)
        { shape := [2, 2, 3], data := fun _ => 0 } =
      Except.ok ((List.range 10).map (fun i => (toString i, (0 : ℚ)))) ∧
    ((List.range 10).map (fun i => (toString i, (0 : ℚ)))).map Prod.fst =
      ["0", "1", "2", "3", "4", "5", "6", "7", "8", "9"] := by
  have h : classify (fun _ _ => 0) (fun _ _ => 0)
      { shape := [2, 2, 3], data := fun _ => 0 } =
      Except.ok ((List.range 10).map (fun i => (toString i, (0 : ℚ)))) := by rfl
  exact ⟨h, (classify_returns_digit_score_dict (fun _ _ => 0) (fun _ _ => 0)
    { shape := [2, 2, 3], data := fun _ => 0 } _ h).1⟩

end MlflowTutorial
